import Mathlib

/-!
Shallow embedding of the `declarative-rules` engine (src/src/index.ts).

Modelling conventions:
* JavaScript runtime values returned by rules are modelled by `JsValue`;
  the TypeScript generic parameter `T` is erased at runtime, and every
  behaviour the claims mention is observable at the `JsValue` level.
* Predicates are passed by reference in JavaScript and the `Map` inside
  `Rules` is keyed by function identity.  We model a predicate reference
  as an identifier `PredId`; a separate environment `PredEnv Ctx` maps
  each identifier to the boolean function it denotes.
* `new Error(msg)` produces a plain error object whose `name` tag is
  "Error"; `JsError` records both the tag and the message.
* Methods that may `throw` before mutating `this` return a pair
  `Option JsError × Rules`: the second component is the object state
  after the call (unchanged when the error fires before the mutation).
* The memoizing wrapper's `WeakMap` is keyed by `Rules` object identity;
  we model object identity by `RulesId` and dereference through a store
  `RulesEnv`.  The cache is threaded explicitly as state.
* To reason about which predicates are invoked (the spec's call-count
  instrumentation), the evaluator also returns the trace of predicate
  identifiers it invoked, in order.
-/

/-- A JavaScript runtime value, as far as the claims need it. -/
inductive JsValue : Type where
  | vNull : JsValue
  | vBool : Bool → JsValue
  | vNum : Int → JsValue
  | vStr : String → JsValue
deriving DecidableEq

/-- A thrown JavaScript error object: its `name` tag and its message.
`new Error(msg)` always has `name = "Error"`. -/
structure JsError : Type where
  name : String
  message : String
deriving DecidableEq

/-- `new Error(msg)` — a plain generic error. -/
def jsError (msg : String) : JsError := ⟨"Error", msg⟩

/-- Identity of a predicate function (JavaScript reference identity). -/
abbrev PredId : Type := Nat

/-- Environment resolving predicate identities to actual predicates. -/
abbrev PredEnv (Ctx : Type) : Type := PredId → Ctx → Bool

/-- The first argument of `setRule` as the caller supplies it: either a
function reference or some other (non-callable) JavaScript value. -/
inductive RuleCond : Type where
  | func : PredId → RuleCond
  | nonFunc : JsValue → RuleCond
deriving DecidableEq

/-- `typeof condition === 'function'`. -/
def RuleCond.isFunction : RuleCond → Bool
  | RuleCond.func _ => true
  | RuleCond.nonFunc _ => false

/-- `Map.prototype.get` on an insertion-ordered association list. -/
def mapGet {α β : Type} [DecidableEq α] : List (α × β) → α → Option β
  | [], _ => none
  | (k', v) :: rest, k => if k' = k then some v else mapGet rest k

/-- `Map.prototype.set` on an insertion-ordered association list: an
existing key keeps its position and gets the new value; a new key is
appended at the end. -/
def mapSet {α β : Type} [DecidableEq α] : List (α × β) → α → β → List (α × β)
  | [], k, v => [(k, v)]
  | (k', v') :: rest, k, v =>
    if k' = k then (k, v) :: rest else (k', v') :: mapSet rest k v

/-- The `Rules` class state: the insertion-ordered rule map
(`private _rules = new Map<Predicate, T>()`) and the default slot
(`private _default: T | null = null` — a null sentinel, not an
`Option`-style presence flag). -/
structure Rules : Type where
  rulesMap : List (PredId × JsValue)
  defaultVal : JsValue
deriving DecidableEq

/-- `new Rules()`: empty map, `_default = null`. -/
def Rules.new : Rules := ⟨[], JsValue.vNull⟩

/-- `setRule(condition, value)`: throws `Error('Rule condition must be a
function.')` when `condition` is not callable (before touching state),
otherwise `this._rules.set(condition, value)`. -/
def Rules.setRule (r : Rules) (condition : RuleCond) (value : JsValue) :
    Option JsError × Rules :=
  match condition with
  | RuleCond.func p => (none, { r with rulesMap := mapSet r.rulesMap p value })
  | RuleCond.nonFunc _ => (some (jsError "Rule condition must be a function."), r)

/-- `setDefault(value)`: `this._default = value`. -/
def Rules.setDefault (r : Rules) (value : JsValue) : Rules :=
  { r with defaultVal := value }

/-- `getRules()`: the ordered rule entries. -/
def Rules.getRules (r : Rules) : List (PredId × JsValue) := r.rulesMap

/-- `getDefault()`: the `_default` field (null when never set). -/
def Rules.getDefault (r : Rules) : JsValue := r.defaultVal

/-- The `for (const [condition, value] of rules.getRules())` loop of
`baseApplyRules`: returns the value of the first entry whose predicate
holds (or `none`), together with the trace of invoked predicates. -/
def applyRulesList {Ctx : Type} (env : PredEnv Ctx) (ctx : Ctx) :
    List (PredId × JsValue) → Option JsValue × List PredId
  | [] => (none, [])
  | (p, v) :: rest =>
    if env p ctx then (some v, [p])
    else
      let r := applyRulesList env ctx rest
      (r.1, p :: r.2)

/-- `baseApplyRules(context, rules)` with invocation trace: first-match
scan, then the default if it is not `null`, else throw. -/
def baseApplyRulesT {Ctx : Type} (env : PredEnv Ctx) (ctx : Ctx) (rules : Rules) :
    Except JsError JsValue × List PredId :=
  let scan := applyRulesList env ctx rules.getRules
  match scan.1 with
  | some v => (Except.ok v, scan.2)
  | none =>
    if rules.getDefault ≠ JsValue.vNull then (Except.ok rules.getDefault, scan.2)
    else
      (Except.error
        (jsError "Rules set is missing a default and no conditions were met."), scan.2)

/-- `baseApplyRules(context, rules)`: the result alone. -/
def baseApplyRules {Ctx : Type} (env : PredEnv Ctx) (ctx : Ctx) (rules : Rules) :
    Except JsError JsValue :=
  (baseApplyRulesT env ctx rules).1

/-- Identity of a `Rules` object (the `WeakMap` outer key). -/
abbrev RulesId : Type := Nat

/-- Store dereferencing `Rules` object identities. -/
abbrev RulesEnv : Type := RulesId → Rules

/-- The memoization cache: outer map keyed by `Rules` identity, inner map
keyed by the serialized context string. -/
abbrev Cache : Type := List (RulesId × List (String × JsValue))

/-- Look up the cache entry stored for a (RuleSet, serialized-context) pair. -/
def cacheLookup (cache : Cache) (rid : RulesId) (key : String) : Option JsValue :=
  match mapGet cache rid with
  | some inner => mapGet inner key
  | none => none

/-- The `memoize(applyFn)` wrapper, with the cache threaded as state and
the predicate-invocation trace exposed.  Mirrors the source line by line:
ensure an inner map exists for the rules object, key by
`JSON.stringify(context)`, return a hit without calling `applyFn` (empty
trace), otherwise call `applyFn` and store the result only on success
(a throw from `applyFn` propagates before `innerCache.set`). -/
def memoize {Ctx : Type} (stringify : Ctx → String) (rulesEnv : RulesEnv)
    (applyFn : Ctx → Rules → Except JsError JsValue × List PredId) :
    Ctx → RulesId → Cache → Except JsError JsValue × Cache × List PredId :=
  fun ctx rid cache =>
    let cache1 := if (mapGet cache rid).isNone then mapSet cache rid [] else cache
    let innerCache := (mapGet cache1 rid).getD []
    let key := stringify ctx
    match mapGet innerCache key with
    | some v => (Except.ok v, cache1, [])
    | none =>
      let r := applyFn ctx (rulesEnv rid)
      match r.1 with
      | Except.ok v => (Except.ok v, mapSet cache1 rid (mapSet innerCache key v), r.2)
      | Except.error e => (Except.error e, cache1, r.2)

/-- `export const applyRules = memoize(baseApplyRules)`, with trace. -/
def applyRulesT {Ctx : Type} (env : PredEnv Ctx) (stringify : Ctx → String)
    (rulesEnv : RulesEnv) :
    Ctx → RulesId → Cache → Except JsError JsValue × Cache × List PredId :=
  memoize stringify rulesEnv (baseApplyRulesT env)

/-- The exported `applyRules(context, rules)`: result and updated cache. -/
def applyRules {Ctx : Type} (env : PredEnv Ctx) (stringify : Ctx → String)
    (rulesEnv : RulesEnv) (ctx : Ctx) (rid : RulesId) (cache : Cache) :
    Except JsError JsValue × Cache :=
  ((applyRulesT env stringify rulesEnv ctx rid cache).1,
   (applyRulesT env stringify rulesEnv ctx rid cache).2.1)

/-- A JavaScript object with string keys, in property insertion order
(the shape `JSON.stringify` serializes field by field). -/
abbrev JsObj : Type := List (String × JsValue)

/-- `JSON.stringify` on a primitive value. -/
def JsValue.stringifyPrim : JsValue → String
  | JsValue.vNull => "null"
  | JsValue.vBool b => if b then "true" else "false"
  | JsValue.vNum n => toString n
  | JsValue.vStr s => "\"" ++ s ++ "\""

/-- `JSON.stringify` on a flat object: fields in property order, so two
objects with the same bindings in different key order serialize
differently (the source does not canonicalize key order). -/
def jsonStringifyObj (o : JsObj) : String :=
  "\x7b" ++
    String.intercalate ","
      (o.map (fun kv => "\"" ++ kv.1 ++ "\":" ++ JsValue.stringifyPrim kv.2)) ++
  "\x7d"

/-- Structural equality of JavaScript objects: the same key/value
bindings, irrespective of property order (deep-equality as used by
lodash `isEqual` or Jest `toEqual`). -/
def structEqObj (o₁ o₂ : JsObj) : Prop := List.Perm o₁ o₂

/-- One mutation of a `Rules` object through its public builder API. -/
inductive Mutation : Type where
  | setRuleM : RuleCond → JsValue → Mutation
  | setDefaultM : JsValue → Mutation

/-- Run one builder mutation; a thrown `setRule` leaves the state as is. -/
def applyMutation (r : Rules) : Mutation → Rules
  | Mutation.setRuleM cond v => (Rules.setRule r cond v).2
  | Mutation.setDefaultM v => Rules.setDefault r v

/-- Run a sequence of builder mutations. -/
def applyMutations (r : Rules) (ms : List Mutation) : Rules :=
  ms.foldl applyMutation r

/-! ### Helper lemmas -/

theorem mapGet_mapSet_self {α β : Type} [DecidableEq α] (m : List (α × β)) (k : α) (v : β) :
    mapGet (mapSet m k v) k = some v := by
  induction m with
  | nil => simp [mapSet, mapGet]
  | cons hd tl ih =>
    obtain ⟨k', v'⟩ := hd
    by_cases h : k' = k
    · simp [mapSet, h, mapGet]
    · simp [mapSet, h, mapGet, ih]

theorem mapSet_replace {α β : Type} [DecidableEq α] (l₁ l₂ : List (α × β)) (p : α) (w v : β)
    (h : p ∉ l₁.map Prod.fst) :
    mapSet (l₁ ++ (p, w) :: l₂) p v = l₁ ++ (p, v) :: l₂ := by
  induction l₁ with
  | nil => simp [mapSet]
  | cons hd tl ih =>
    obtain ⟨k', v'⟩ := hd
    simp only [List.map_cons, List.mem_cons, not_or] at h
    have hne : k' ≠ p := fun hkp => h.1 hkp.symm
    simp [mapSet, hne, ih h.2]

theorem applyRulesList_all_false {Ctx : Type} (env : PredEnv Ctx) (ctx : Ctx)
    (l : List (PredId × JsValue)) (h : ∀ e ∈ l, env e.1 ctx = false) :
    applyRulesList env ctx l = (none, l.map Prod.fst) := by
  induction l with
  | nil => simp [applyRulesList]
  | cons hd tl ih =>
    obtain ⟨p, v⟩ := hd
    have h1 : env p ctx = false := h (p, v) (by simp)
    have h2 := ih (fun e he => h e (List.mem_cons_of_mem _ he))
    simp [applyRulesList, h1, h2]

theorem applyRulesList_first_match {Ctx : Type} (env : PredEnv Ctx) (ctx : Ctx)
    (l₁ l₂ : List (PredId × JsValue)) (p : PredId) (v : JsValue)
    (hbefore : ∀ e ∈ l₁, env e.1 ctx = false) (hp : env p ctx = true) :
    applyRulesList env ctx (l₁ ++ (p, v) :: l₂) = (some v, l₁.map Prod.fst ++ [p]) := by
  induction l₁ with
  | nil => simp [applyRulesList, hp]
  | cons hd tl ih =>
    obtain ⟨q, w⟩ := hd
    have h1 : env q ctx = false := hbefore (q, w) (by simp)
    have h2 := ih (fun e he => hbefore e (List.mem_cons_of_mem _ he))
    simp [applyRulesList, h1, h2]

/-! ### Claim theorems -/

/-- Claim C1: when some predicate of the rule set holds for the context,
`applyRules`'s base evaluation returns the value paired with the first
matching predicate in insertion order, its invocation trace is exactly
the predicates up to and including that first match, and no predicate
positioned after the first match is invoked. -/
theorem C1_first_match_wins_short_circuit {Ctx : Type} (env : PredEnv Ctx) (ctx : Ctx)
    (rules : Rules) (l₁ l₂ : List (PredId × JsValue)) (p : PredId) (v : JsValue)
    (hsplit : rules.getRules = l₁ ++ (p, v) :: l₂)
    (hbefore : ∀ e ∈ l₁, env e.1 ctx = false)
    (hmatch : env p ctx = true)
    (hnodup : (rules.getRules.map Prod.fst).Nodup) :
    baseApplyRules env ctx rules = Except.ok v ∧
    (baseApplyRulesT env ctx rules).2 = l₁.map Prod.fst ++ [p] ∧
    ∀ q ∈ l₂.map Prod.fst, q ∉ (baseApplyRulesT env ctx rules).2 := by
  have hscan := applyRulesList_first_match env ctx l₁ l₂ p v hbefore hmatch
  have hsplit' : rules.rulesMap = l₁ ++ (p, v) :: l₂ := hsplit
  have hT : baseApplyRulesT env ctx rules = (Except.ok v, l₁.map Prod.fst ++ [p]) := by
    simp [baseApplyRulesT, Rules.getRules, hsplit', hscan]
  refine ⟨by simp [baseApplyRules, hT], by simp [hT], ?_⟩
  intro q hq
  rw [hT]
  rw [hsplit] at hnodup
  rw [List.map_append, List.map_cons, List.nodup_append] at hnodup
  obtain ⟨-, hnd2, hdisj⟩ := hnodup
  simp only [List.mem_append, List.mem_singleton, not_or]
  constructor
  · intro hq1
    exact hdisj hq1 (List.mem_cons_of_mem _ hq)
  · intro hqp
    exact (List.nodup_cons.mp hnd2).1 (hqp ▸ hq)

/-- Witness for C1 at a concrete rule set: three rules "A","B","C" under
predicate ids 0,1,2; only predicate 1 matches, so the result is "B" and
the invocation trace is `[0, 1]` — predicate 2 is never invoked. -/
theorem C1_first_match_wins_short_circuit_witness :
    (∀ e ∈ [((0 : PredId), JsValue.vStr "A")],
        (fun (q : PredId) (_ : Unit) => decide (q = 1)) e.1 () = false) ∧
    baseApplyRules (fun (q : PredId) (_ : Unit) => decide (q = 1)) ()
      ⟨[(0, JsValue.vStr "A"), (1, JsValue.vStr "B"), (2, JsValue.vStr "C")], JsValue.vNull⟩ =
      Except.ok (JsValue.vStr "B") ∧
    (baseApplyRulesT (fun (q : PredId) (_ : Unit) => decide (q = 1)) ()
      ⟨[(0, JsValue.vStr "A"), (1, JsValue.vStr "B"), (2, JsValue.vStr "C")], JsValue.vNull⟩).2 =
      [0, 1] := by
  refine ⟨by decide, ?_, ?_⟩
  · exact (C1_first_match_wins_short_circuit (fun q _ => decide (q = 1)) ()
      ⟨[(0, JsValue.vStr "A"), (1, JsValue.vStr "B"), (2, JsValue.vStr "C")], JsValue.vNull⟩
      [(0, JsValue.vStr "A")] [(2, JsValue.vStr "C")] 1 (JsValue.vStr "B")
      rfl (by decide) (by decide) (by decide)).1
  · exact (C1_first_match_wins_short_circuit (fun q _ => decide (q = 1)) ()
      ⟨[(0, JsValue.vStr "A"), (1, JsValue.vStr "B"), (2, JsValue.vStr "C")], JsValue.vNull⟩
      [(0, JsValue.vStr "A")] [(2, JsValue.vStr "C")] 1 (JsValue.vStr "B")
      rfl (by decide) (by decide) (by decide)).2.1

/-- Claim C2 (code bug, evaluated at the failing input): `setDefault(null)`
leaves the `Rules` state identical to a fresh instance — the code keeps
`_default: T | null = null` as a null sentinel, with no presence flag —
so after `setDefault(null)` the default accessor cannot report a present
default, and evaluation with no matching predicate throws the no-match
error instead of returning the configured `null` default. -/
theorem C2_null_default_indistinguishable_from_unset :
    Rules.setDefault Rules.new JsValue.vNull = Rules.new ∧
    (Rules.setDefault Rules.new JsValue.vNull).getDefault = Rules.new.getDefault ∧
    baseApplyRules (fun (_ : PredId) (_ : Unit) => false) ()
      (Rules.setDefault Rules.new JsValue.vNull) =
      Except.error (jsError "Rules set is missing a default and no conditions were met.") := by
  refine ⟨rfl, rfl, ?_⟩
  simp [baseApplyRules, baseApplyRulesT, applyRulesList, Rules.new, Rules.setDefault,
    Rules.getRules, Rules.getDefault, jsError]

/-- Claim C3 (counterexample): the error thrown for a non-callable rule
condition and the error thrown when no predicate matches and no default
is set are both plain `Error` values with the same `name` tag "Error" —
the code does not expose two programmatically distinct error kinds. -/
theorem C3_counterexample_single_generic_error_kind :
    (Rules.setRule Rules.new (RuleCond.nonFunc (JsValue.vNum 3)) (JsValue.vStr "x")).1 =
      some (jsError "Rule condition must be a function.") ∧
    baseApplyRules (fun (_ : PredId) (_ : Unit) => false) () Rules.new =
      Except.error (jsError "Rules set is missing a default and no conditions were met.") ∧
    (jsError "Rule condition must be a function.").name =
      (jsError "Rules set is missing a default and no conditions were met.").name := by
  refine ⟨rfl, ?_, rfl⟩
  simp [baseApplyRules, baseApplyRulesT, applyRulesList, Rules.new,
    Rules.getRules, Rules.getDefault, jsError]

/-- Claim C3 (amended): both failure kinds are surfaced as the single
generic `Error` kind (tag "Error"); the caller can distinguish the
invalid-rule failure from the no-match failure only by the message
string, and the two message strings do differ. -/
theorem C3_amended_distinguished_only_by_message :
    (Rules.setRule Rules.new (RuleCond.nonFunc JsValue.vNull) JsValue.vNull).1 =
      some ⟨"Error", "Rule condition must be a function."⟩ ∧
    baseApplyRules (fun (_ : PredId) (_ : Unit) => false) ()
      ⟨[(0, JsValue.vStr "z")], JsValue.vNull⟩ =
      Except.error ⟨"Error", "Rules set is missing a default and no conditions were met."⟩ ∧
    (jsError "Rule condition must be a function.").message ≠
      (jsError "Rules set is missing a default and no conditions were met.").message := by
  refine ⟨rfl, ?_, by decide⟩
  simp [baseApplyRules, baseApplyRulesT, applyRulesList,
    Rules.getRules, Rules.getDefault, jsError]

/-- Claim C6: for a rule set whose default slot is null (no default
configured) and a context matching no predicate, evaluation fails with
the no-match error. -/
theorem C6_no_match_no_default_fails {Ctx : Type} (env : PredEnv Ctx) (ctx : Ctx)
    (rules : Rules)
    (hnm : ∀ e ∈ rules.getRules, env e.1 ctx = false)
    (hnd : rules.getDefault = JsValue.vNull) :
    baseApplyRules env ctx rules =
      Except.error (jsError "Rules set is missing a default and no conditions were met.") := by
  have hscan := applyRulesList_all_false env ctx rules.getRules hnm
  simp [baseApplyRules, baseApplyRulesT, Rules.getRules] at hscan ⊢
  simp [hscan, hnd]

/-- Witness for C6: one rule that does not match, no default. -/
theorem C6_no_match_no_default_fails_witness :
    (∀ e ∈ (Rules.mk [(0, JsValue.vStr "large")] JsValue.vNull).getRules,
        (fun (_ : PredId) (_ : Unit) => false) e.1 () = false) ∧
    baseApplyRules (fun (_ : PredId) (_ : Unit) => false) ()
      (Rules.mk [(0, JsValue.vStr "large")] JsValue.vNull) =
      Except.error (jsError "Rules set is missing a default and no conditions were met.") :=
  ⟨by decide,
   C6_no_match_no_default_fails (fun _ _ => false) ()
     (Rules.mk [(0, JsValue.vStr "large")] JsValue.vNull) (by decide) rfl⟩

/-- Claim C7: for a rule set with a default configured (a non-null
default slot, the code's criterion for presence) and a context matching
no predicate, evaluation returns the default value. -/
theorem C7_default_returned_on_no_match {Ctx : Type} (env : PredEnv Ctx) (ctx : Ctx)
    (rules : Rules)
    (hnm : ∀ e ∈ rules.getRules, env e.1 ctx = false)
    (hd : rules.getDefault ≠ JsValue.vNull) :
    baseApplyRules env ctx rules = Except.ok rules.getDefault := by
  have hscan := applyRulesList_all_false env ctx rules.getRules hnm
  simp [baseApplyRules, baseApplyRulesT, Rules.getRules] at hscan ⊢
  simp [hscan, hd]

/-- Witness for C7: one rule that does not match, default "Member". -/
theorem C7_default_returned_on_no_match_witness :
    (Rules.mk [(0, JsValue.vStr "Administrator")] (JsValue.vStr "Member")).getDefault ≠
      JsValue.vNull ∧
    baseApplyRules (fun (_ : PredId) (_ : Unit) => false) ()
      (Rules.mk [(0, JsValue.vStr "Administrator")] (JsValue.vStr "Member")) =
      Except.ok (JsValue.vStr "Member") :=
  ⟨by decide,
   C7_default_returned_on_no_match (fun _ _ => false) ()
     (Rules.mk [(0, JsValue.vStr "Administrator")] (JsValue.vStr "Member"))
     (by decide) (by decide)⟩

/-- Claim C8: `setRule` with a non-callable condition throws
`Error('Rule condition must be a function.')` and leaves the `Rules`
state exactly as it was (no entry added, order and default untouched). -/
theorem C8_invalid_rule_throws_without_mutation (r : Rules) (cond : RuleCond)
    (v : JsValue) (h : cond.isFunction = false) :
    Rules.setRule r cond v = (some (jsError "Rule condition must be a function."), r) := by
  cases cond with
  | func p => simp [RuleCond.isFunction] at h
  | nonFunc w => simp [Rules.setRule]

/-- Witness for C8: passing the number 3 as a condition to a rule set
that already has one rule and a default. -/
theorem C8_invalid_rule_throws_without_mutation_witness :
    (RuleCond.nonFunc (JsValue.vNum 3)).isFunction = false ∧
    Rules.setRule (Rules.mk [(0, JsValue.vStr "a")] (JsValue.vStr "d"))
      (RuleCond.nonFunc (JsValue.vNum 3)) (JsValue.vStr "b") =
      (some (jsError "Rule condition must be a function."),
       Rules.mk [(0, JsValue.vStr "a")] (JsValue.vStr "d")) :=
  ⟨by decide,
   C8_invalid_rule_throws_without_mutation
     (Rules.mk [(0, JsValue.vStr "a")] (JsValue.vStr "d"))
     (RuleCond.nonFunc (JsValue.vNum 3)) (JsValue.vStr "b") (by decide)⟩

/-- Claim C9: re-adding a rule under a predicate identity already present
replaces the stored value in place: `setRule` succeeds, the entry keeps
its original position, the entry sequence keeps its length and its key
order, and a subsequent evaluation on which that predicate is the first
match returns the new value. -/
theorem C9_reinsert_replaces_value_in_place (r : Rules)
    (l₁ l₂ : List (PredId × JsValue)) (p : PredId) (w v : JsValue)
    (hsplit : r.getRules = l₁ ++ (p, w) :: l₂)
    (hfresh : p ∉ l₁.map Prod.fst) :
    (Rules.setRule r (RuleCond.func p) v).1 = none ∧
    (Rules.setRule r (RuleCond.func p) v).2.getRules = l₁ ++ (p, v) :: l₂ ∧
    (Rules.setRule r (RuleCond.func p) v).2.getRules.length = r.getRules.length ∧
    (Rules.setRule r (RuleCond.func p) v).2.getRules.map Prod.fst =
      r.getRules.map Prod.fst ∧
    ∀ (Ctx : Type) (env : PredEnv Ctx) (ctx : Ctx),
      (∀ e ∈ l₁, env e.1 ctx = false) → env p ctx = true →
        baseApplyRules env ctx (Rules.setRule r (RuleCond.func p) v).2 = Except.ok v := by
  have hsplit' : r.rulesMap = l₁ ++ (p, w) :: l₂ := hsplit
  have hset : (Rules.setRule r (RuleCond.func p) v).2.rulesMap = l₁ ++ (p, v) :: l₂ := by
    simp only [Rules.setRule]
    rw [hsplit']
    exact mapSet_replace l₁ l₂ p w v hfresh
  refine ⟨rfl, hset, ?_, ?_, ?_⟩
  · rw [Rules.getRules, hset, Rules.getRules, hsplit']
    simp
  · rw [Rules.getRules, hset, Rules.getRules, hsplit']
    simp
  · intro Ctx env ctx hb hm
    have hscan := applyRulesList_first_match env ctx l₁ l₂ p v hb hm
    simp [baseApplyRules, baseApplyRulesT, Rules.getRules, hset, hscan]

/-- Witness for C9: re-adding predicate 0 with value "new" in a two-rule
set keeps the order `[0, 1]` and makes matches on predicate 0 return
"new". -/
theorem C9_reinsert_replaces_value_in_place_witness :
    (Rules.setRule (Rules.mk [(0, JsValue.vStr "old"), (1, JsValue.vStr "other")]
        JsValue.vNull) (RuleCond.func 0) (JsValue.vStr "new")).2.getRules =
      [(0, JsValue.vStr "new"), (1, JsValue.vStr "other")] ∧
    baseApplyRules (fun (q : PredId) (_ : Unit) => decide (q = 0)) ()
      (Rules.setRule (Rules.mk [(0, JsValue.vStr "old"), (1, JsValue.vStr "other")]
        JsValue.vNull) (RuleCond.func 0) (JsValue.vStr "new")).2 =
      Except.ok (JsValue.vStr "new") := by
  refine ⟨?_, ?_⟩
  · exact (C9_reinsert_replaces_value_in_place
      (Rules.mk [(0, JsValue.vStr "old"), (1, JsValue.vStr "other")] JsValue.vNull)
      [] [(1, JsValue.vStr "other")] 0 (JsValue.vStr "old") (JsValue.vStr "new")
      rfl (by decide)).2.1
  · exact (C9_reinsert_replaces_value_in_place
      (Rules.mk [(0, JsValue.vStr "old"), (1, JsValue.vStr "other")] JsValue.vNull)
      [] [(1, JsValue.vStr "other")] 0 (JsValue.vStr "old") (JsValue.vStr "new")
      rfl (by decide)).2.2.2.2 Unit (fun q _ => decide (q = 0)) () (by decide) (by decide)

/-! ### Memoization lemmas -/

theorem memoize_hit {Ctx : Type} (stringify : Ctx → String) (rulesEnv : RulesEnv)
    (applyFn : Ctx → Rules → Except JsError JsValue × List PredId) (ctx : Ctx)
    (rid : RulesId) (cache : Cache) (inner : List (String × JsValue)) (v : JsValue)
    (h1 : mapGet cache rid = some inner)
    (h2 : mapGet inner (stringify ctx) = some v) :
    memoize stringify rulesEnv applyFn ctx rid cache = (Except.ok v, cache, []) := by
  simp [memoize, h1, h2]

theorem memoize_ok_cached {Ctx : Type} (stringify : Ctx → String) (rulesEnv : RulesEnv)
    (applyFn : Ctx → Rules → Except JsError JsValue × List PredId) (ctx : Ctx)
    (rid : RulesId) (cache : Cache) (v : JsValue)
    (h : (memoize stringify rulesEnv applyFn ctx rid cache).1 = Except.ok v) :
    cacheLookup (memoize stringify rulesEnv applyFn ctx rid cache).2.1 rid
      (stringify ctx) = some v := by
  rcases hout : mapGet cache rid with _ | inner
  · have hsets : mapGet (mapSet cache rid ([] : List (String × JsValue))) rid = some [] :=
      mapGet_mapSet_self cache rid []
    rcases happ : applyFn ctx (rulesEnv rid) with ⟨res, tr⟩
    rcases res with e | v'
    · simp [memoize, hout, hsets, mapGet, happ] at h
    · simp [memoize, hout, hsets, mapGet, happ] at h ⊢
      subst h
      simp [cacheLookup, mapGet_mapSet_self]
  · rcases hin : mapGet inner (stringify ctx) with _ | v'
    · rcases happ : applyFn ctx (rulesEnv rid) with ⟨res, tr⟩
      rcases res with e | v'
      · simp [memoize, hout, hin, happ] at h
      · simp [memoize, hout, hin, happ] at h ⊢
        subst h
        simp [cacheLookup, mapGet_mapSet_self]
    · simp [memoize, hout, hin] at h ⊢
      subst h
      simp [cacheLookup, hout, hin]

theorem memoize_miss_error {Ctx : Type} (stringify : Ctx → String) (rulesEnv : RulesEnv)
    (applyFn : Ctx → Rules → Except JsError JsValue × List PredId) (ctx : Ctx)
    (rid : RulesId) (cache : Cache) (e : JsError) (tr : List PredId)
    (hmiss : cacheLookup cache rid (stringify ctx) = none)
    (happ : applyFn ctx (rulesEnv rid) = (Except.error e, tr)) :
    memoize stringify rulesEnv applyFn ctx rid cache =
      (Except.error e,
       (if (mapGet cache rid).isNone then mapSet cache rid [] else cache), tr) := by
  rcases hout : mapGet cache rid with _ | inner
  · have hsets : mapGet (mapSet cache rid ([] : List (String × JsValue))) rid = some [] :=
      mapGet_mapSet_self cache rid []
    simp [memoize, hout, hsets, mapGet, happ]
  · have hin : mapGet inner (stringify ctx) = none := by
      simpa [cacheLookup, hout] using hmiss
    simp [memoize, hout, hin, happ]

theorem cacheLookup_after_ensure (cache : Cache) (rid : RulesId) (key : String)
    (hmiss : cacheLookup cache rid key = none) :
    cacheLookup (if (mapGet cache rid).isNone then mapSet cache rid [] else cache)
      rid key = none := by
  rcases hout : mapGet cache rid with _ | inner
  · simp [hout, cacheLookup, mapGet_mapSet_self, mapGet]
  · simpa [hout, cacheLookup] using hmiss

theorem mapGet_ensure_isSome (cache : Cache) (rid : RulesId) :
    (mapGet (if (mapGet cache rid).isNone then mapSet cache rid ([] : List (String × JsValue))
      else cache) rid).isNone = false := by
  rcases hout : mapGet cache rid with _ | inner
  · simp [hout, mapGet_mapSet_self]
  · simp [hout]

/-- Claim C4: the memoizing wrapper never caches a failure.  When the
wrapped evaluation throws (no match, no default) on a cache miss, the
returned error propagates, no cache entry is stored for the
(RuleSet, serialized-context) pair, and a subsequent call with the same
inputs re-runs the evaluation (same error, same predicate invocations)
instead of hitting the cache. -/
theorem C4_failures_are_not_cached {Ctx : Type} (env : PredEnv Ctx)
    (stringify : Ctx → String) (rulesEnv : RulesEnv) (ctx : Ctx) (rid : RulesId)
    (cache : Cache) (e : JsError) (tr : List PredId)
    (hmiss : cacheLookup cache rid (stringify ctx) = none)
    (hbase : baseApplyRulesT env ctx (rulesEnv rid) = (Except.error e, tr)) :
    (applyRulesT env stringify rulesEnv ctx rid cache).1 = Except.error e ∧
    cacheLookup (applyRulesT env stringify rulesEnv ctx rid cache).2.1 rid
      (stringify ctx) = none ∧
    (applyRulesT env stringify rulesEnv ctx rid cache).2.2 = tr ∧
    applyRulesT env stringify rulesEnv ctx rid
        (applyRulesT env stringify rulesEnv ctx rid cache).2.1 =
      (Except.error e, (applyRulesT env stringify rulesEnv ctx rid cache).2.1, tr) := by
  have hfirst : applyRulesT env stringify rulesEnv ctx rid cache =
      (Except.error e,
       (if (mapGet cache rid).isNone then mapSet cache rid [] else cache), tr) :=
    memoize_miss_error stringify rulesEnv (baseApplyRulesT env) ctx rid cache e tr
      hmiss hbase
  have hmiss1 : cacheLookup
      (if (mapGet cache rid).isNone then mapSet cache rid [] else cache) rid
      (stringify ctx) = none :=
    cacheLookup_after_ensure cache rid (stringify ctx) hmiss
  refine ⟨by rw [hfirst], by rw [hfirst]; exact hmiss1, by rw [hfirst], ?_⟩
  rw [hfirst]
  have hsecond := memoize_miss_error stringify rulesEnv (baseApplyRulesT env) ctx rid
    (if (mapGet cache rid).isNone then mapSet cache rid [] else cache) e tr hmiss1 hbase
  rw [show applyRulesT env stringify rulesEnv ctx rid
      (if (mapGet cache rid).isNone then mapSet cache rid [] else cache) =
      memoize stringify rulesEnv (baseApplyRulesT env) ctx rid
      (if (mapGet cache rid).isNone then mapSet cache rid [] else cache) from rfl]
  rw [hsecond]
  simp only [mapGet_ensure_isSome cache rid, Bool.false_eq_true, if_false]

/-- Witness for C4: a one-rule set whose predicate never matches and no
default, evaluated twice through the memoized entry point on an empty
cache: both calls throw, the pair is never cached, and the predicate is
invoked on both calls. -/
theorem C4_failures_are_not_cached_witness :
    cacheLookup [] 0 "u" = none ∧
    baseApplyRulesT (fun (_ : PredId) (_ : Unit) => false) ()
      (Rules.mk [(0, JsValue.vStr "large")] JsValue.vNull) =
      (Except.error (jsError "Rules set is missing a default and no conditions were met."),
       [0]) ∧
    cacheLookup
      (applyRulesT (fun (_ : PredId) (_ : Unit) => false) (fun _ => "u")
        (fun _ => Rules.mk [(0, JsValue.vStr "large")] JsValue.vNull) () 0 []).2.1 0 "u" =
      none ∧
    (applyRulesT (fun (_ : PredId) (_ : Unit) => false) (fun _ => "u")
      (fun _ => Rules.mk [(0, JsValue.vStr "large")] JsValue.vNull) () 0
      (applyRulesT (fun (_ : PredId) (_ : Unit) => false) (fun _ => "u")
        (fun _ => Rules.mk [(0, JsValue.vStr "large")] JsValue.vNull) () 0 []).2.1).2.2 =
      [0] := by
  refine ⟨rfl, rfl, ?_, ?_⟩
  · exact (C4_failures_are_not_cached (fun _ _ => false) (fun _ => "u")
      (fun _ => Rules.mk [(0, JsValue.vStr "large")] JsValue.vNull) () 0 []
      (jsError "Rules set is missing a default and no conditions were met.") [0]
      rfl rfl).2.1
  · have h := (C4_failures_are_not_cached (fun _ _ => false) (fun _ => "u")
      (fun _ => Rules.mk [(0, JsValue.vStr "large")] JsValue.vNull) () 0 []
      (jsError "Rules set is missing a default and no conditions were met.") [0]
      rfl rfl).2.2.2
    rw [h]

/-- Claim C5 (counterexample): two structurally-equal contexts — the
objects `\x7b a: 1, b: 2 \x7d` and `\x7b b: 2, a: 1 \x7d`, equal as
key/value maps — serialize to different `JSON.stringify` keys, so the
second memoized call misses the cache and invokes predicate 0 again:
its invocation trace is `[0]`, not the empty trace the claim requires
for the second of two calls with structurally-equal contexts. -/
theorem C5_counterexample_key_order_defeats_memoization :
    structEqObj [("a", JsValue.vNum 1), ("b", JsValue.vNum 2)]
                [("b", JsValue.vNum 2), ("a", JsValue.vNum 1)] ∧
    (applyRulesT (fun (_ : PredId) (_ : JsObj) => true) jsonStringifyObj
        (fun _ => Rules.mk [(0, JsValue.vStr "m")] JsValue.vNull)
        [("a", JsValue.vNum 1), ("b", JsValue.vNum 2)] 0 []).1 =
      Except.ok (JsValue.vStr "m") ∧
    (applyRulesT (fun (_ : PredId) (_ : JsObj) => true) jsonStringifyObj
        (fun _ => Rules.mk [(0, JsValue.vStr "m")] JsValue.vNull)
        [("b", JsValue.vNum 2), ("a", JsValue.vNum 1)] 0
        (applyRulesT (fun (_ : PredId) (_ : JsObj) => true) jsonStringifyObj
          (fun _ => Rules.mk [(0, JsValue.vStr "m")] JsValue.vNull)
          [("a", JsValue.vNum 1), ("b", JsValue.vNum 2)] 0 []).2.1).2.2 = [0] := by
  refine ⟨List.Perm.swap ("b", JsValue.vNum 2) ("a", JsValue.vNum 1) [], rfl, ?_⟩
  rfl

/-- Claim C5 (amended): given the same RuleSet instance and two contexts
with equal `JSON.stringify` serializations (structurally equal with the
same key order), the predicates are invoked only during the first call:
the second call is a cache hit returning the stored value with an empty
invocation trace and an unchanged cache. -/
theorem C5_amended_same_serialization_hits_cache {Ctx : Type} (env : PredEnv Ctx)
    (stringify : Ctx → String) (rulesEnv : RulesEnv) (c₁ c₂ : Ctx) (rid : RulesId)
    (cache : Cache) (v : JsValue)
    (hkey : stringify c₁ = stringify c₂)
    (h1 : (applyRulesT env stringify rulesEnv c₁ rid cache).1 = Except.ok v) :
    applyRulesT env stringify rulesEnv c₂ rid
        (applyRulesT env stringify rulesEnv c₁ rid cache).2.1 =
      (Except.ok v, (applyRulesT env stringify rulesEnv c₁ rid cache).2.1, []) := by
  have hcached : cacheLookup (applyRulesT env stringify rulesEnv c₁ rid cache).2.1 rid
      (stringify c₁) = some v :=
    memoize_ok_cached stringify rulesEnv (baseApplyRulesT env) c₁ rid cache v h1
  rw [hkey] at hcached
  rcases hout : mapGet (applyRulesT env stringify rulesEnv c₁ rid cache).2.1 rid
    with _ | inner
  · rw [cacheLookup, hout] at hcached
    exact absurd hcached (by simp)
  · rw [cacheLookup, hout] at hcached
    exact memoize_hit stringify rulesEnv (baseApplyRulesT env) c₂ rid
      (applyRulesT env stringify rulesEnv c₁ rid cache).2.1 inner v hout hcached

/-- Witness for the amended C5: one always-true predicate, constant
serialization, two calls; the second call returns the cached "m" with an
empty invocation trace. -/
theorem C5_amended_same_serialization_hits_cache_witness :
    (applyRulesT (fun (_ : PredId) (_ : Unit) => true) (fun _ => "k")
      (fun _ => Rules.mk [(0, JsValue.vStr "m")] JsValue.vNull) () 0 []).1 =
      Except.ok (JsValue.vStr "m") ∧
    applyRulesT (fun (_ : PredId) (_ : Unit) => true) (fun _ => "k")
        (fun _ => Rules.mk [(0, JsValue.vStr "m")] JsValue.vNull) () 0
        (applyRulesT (fun (_ : PredId) (_ : Unit) => true) (fun _ => "k")
          (fun _ => Rules.mk [(0, JsValue.vStr "m")] JsValue.vNull) () 0 []).2.1 =
      (Except.ok (JsValue.vStr "m"),
       (applyRulesT (fun (_ : PredId) (_ : Unit) => true) (fun _ => "k")
         (fun _ => Rules.mk [(0, JsValue.vStr "m")] JsValue.vNull) () 0 []).2.1, []) :=
  ⟨rfl,
   C5_amended_same_serialization_hits_cache (fun _ _ => true) (fun _ => "k")
     (fun _ => Rules.mk [(0, JsValue.vStr "m")] JsValue.vNull) () () 0 []
     (JsValue.vStr "m") rfl rfl⟩

/-- Claim C10: cached results survive later mutation of the RuleSet.  If
a memoized evaluation succeeded with value `v`, then after any sequence
of `setRule`/`setDefault` mutations of that same `Rules` object (the
builder methods never touch the cache), a later call with a context of
equal serialization still returns `v` from the cache, invoking no
predicate and leaving the cache unchanged. -/
theorem C10_mutations_do_not_invalidate_cache {Ctx : Type} (env : PredEnv Ctx)
    (stringify : Ctx → String) (rulesEnv : RulesEnv) (c₁ c₂ : Ctx) (rid : RulesId)
    (cache : Cache) (v : JsValue) (ms : List Mutation)
    (hkey : stringify c₁ = stringify c₂)
    (h1 : (applyRulesT env stringify rulesEnv c₁ rid cache).1 = Except.ok v) :
    applyRulesT env stringify
        (fun i => if i = rid then applyMutations (rulesEnv i) ms else rulesEnv i) c₂ rid
        (applyRulesT env stringify rulesEnv c₁ rid cache).2.1 =
      (Except.ok v, (applyRulesT env stringify rulesEnv c₁ rid cache).2.1, []) := by
  have hcached : cacheLookup (applyRulesT env stringify rulesEnv c₁ rid cache).2.1 rid
      (stringify c₁) = some v :=
    memoize_ok_cached stringify rulesEnv (baseApplyRulesT env) c₁ rid cache v h1
  rw [hkey] at hcached
  rcases hout : mapGet (applyRulesT env stringify rulesEnv c₁ rid cache).2.1 rid
    with _ | inner
  · rw [cacheLookup, hout] at hcached
    exact absurd hcached (by simp)
  · rw [cacheLookup, hout] at hcached
    exact memoize_hit stringify
      (fun i => if i = rid then applyMutations (rulesEnv i) ms else rulesEnv i)
      (baseApplyRulesT env) c₂ rid
      (applyRulesT env stringify rulesEnv c₁ rid cache).2.1 inner v hout hcached

/-- Witness for C10: after the first call caches "m", the rule set's
value for predicate 0 is rewritten to "changed" and the default to
"changed2"; the second call still returns the stale cached "m" with no
predicate invoked. -/
theorem C10_mutations_do_not_invalidate_cache_witness :
    (applyRulesT (fun (_ : PredId) (_ : Unit) => true) (fun _ => "k")
      (fun _ => Rules.mk [(0, JsValue.vStr "m")] JsValue.vNull) () 0 []).1 =
      Except.ok (JsValue.vStr "m") ∧
    applyMutations (Rules.mk [(0, JsValue.vStr "m")] JsValue.vNull)
      [Mutation.setRuleM (RuleCond.func 0) (JsValue.vStr "changed"),
       Mutation.setDefaultM (JsValue.vStr "changed2")] =
      Rules.mk [(0, JsValue.vStr "changed")] (JsValue.vStr "changed2") ∧
    applyRulesT (fun (_ : PredId) (_ : Unit) => true) (fun _ => "k")
        (fun i => if i = 0 then
            applyMutations ((fun (_ : RulesId) =>
              Rules.mk [(0, JsValue.vStr "m")] JsValue.vNull) i)
              [Mutation.setRuleM (RuleCond.func 0) (JsValue.vStr "changed"),
               Mutation.setDefaultM (JsValue.vStr "changed2")]
          else (fun (_ : RulesId) =>
            Rules.mk [(0, JsValue.vStr "m")] JsValue.vNull) i) () 0
        (applyRulesT (fun (_ : PredId) (_ : Unit) => true) (fun _ => "k")
          (fun _ => Rules.mk [(0, JsValue.vStr "m")] JsValue.vNull) () 0 []).2.1 =
      (Except.ok (JsValue.vStr "m"),
       (applyRulesT (fun (_ : PredId) (_ : Unit) => true) (fun _ => "k")
         (fun _ => Rules.mk [(0, JsValue.vStr "m")] JsValue.vNull) () 0 []).2.1, []) :=
  ⟨rfl, rfl,
   C10_mutations_do_not_invalidate_cache (fun _ _ => true) (fun _ => "k")
     (fun _ => Rules.mk [(0, JsValue.vStr "m")] JsValue.vNull) () () 0 []
     (JsValue.vStr "m")
     [Mutation.setRuleM (RuleCond.func 0) (JsValue.vStr "changed"),
      Mutation.setDefaultM (JsValue.vStr "changed2")] rfl rfl⟩
